import Mathlib

/-!
Verification of the xecutbot single-command relay.

Shallow embedding of `src/old/main.py` (`post_handler`) and proofs of the
spec's claims about it.

The handler is modelled as a pure function from an environment (the results
the external messaging transport would return for the three outbound calls:
membership query, announce send, forward) and an inbound command event to the
list of outbound transport actions the handler performs, in order.  A Python
exception raised by a transport call is modelled as the corresponding
`Except.error` result, which routes the run into the catch-all branch that
replies with the generic failure notice.  Delivery of reply actions back to
the chat is the dispatcher's concern (out of scope per the spec), so replies
are recorded as emitted actions rather than fallible calls.
-/

namespace Xecutbot

/-- Model of `telegram.constants.ChatMemberStatus` as used by the source:
the six member statuses the Telegram Bot API can report. -/
inductive ChatMemberStatus where
  | member
  | administrator
  | owner
  | restricted
  | left
  | banned
deriving DecidableEq, Repr

/-- Constant `RESIDENT_CHAT_ID = -1002614784999` (main.py line 8). -/
def RESIDENT_CHAT_ID : Int := -1002614784999

/-- Constant `XECUT_CHAT_ID = -1002089160630` (main.py line 9). -/
def XECUT_CHAT_ID : Int := -1002089160630

/-- Constant `XECUT_CHANNEL_TAG = "xecut_live"` (main.py line 10). -/
def XECUT_CHANNEL_TAG : String := "xecut_live"

/-- The authorization decision of main.py line 21:
`member.status in (ChatMemberStatus.MEMBER, ChatMemberStatus.ADMINISTRATOR,
ChatMemberStatus.OWNER)`. -/
def isAuthorized : ChatMemberStatus → Bool
  | .member => true
  | .administrator => true
  | .owner => true
  | _ => false

/-- Denial notice (main.py line 22). -/
def denialText : String := "Для постинга в Xecut Live нужно быть резидентом хакспейса"

/-- Usage notice (main.py line 36). -/
def usageText : String := "Отправь эту команду реплаем на сообщение"

/-- Generic failure notice of the catch-all handler (main.py line 40). -/
def errorText : String := "Произошла ошибка, попробуйте позже"

/-- The announce text (main.py line 26):
`f"https://t.me/xecut_chat/{msg.reply_to_message.message_id}"`. -/
def announceText (replyId : Nat) : String :=
  "https://t.me/xecut_chat/" ++ Nat.repr replyId

/-- The confirmation link embedded in the success reply (main.py line 34):
`https://t.me/{XECUT_CHANNEL_TAG}/{posted.message_id}`. -/
def confirmLink (postedId : Nat) : String :=
  "https://t.me/" ++ XECUT_CHANNEL_TAG ++ "/" ++ Nat.repr postedId

/-- The success reply text (main.py line 34):
`f'Запостил в <a href="https://t.me/{XECUT_CHANNEL_TAG}/{posted.message_id}">Xecut Live</a>'`. -/
def successText (postedId : Nat) : String :=
  "Запостил в <a href=\"" ++ confirmLink postedId ++ "\">Xecut Live</a>"

/-- One inbound command invocation: the fields of `update.effective_message`
that `post_handler` reads.  `reply_to_message` is the optional reply target,
identified by its message id. -/
structure CommandEvent where
  chat_id : Int
  from_user_id : Int
  message_id : Nat
  reply_to_message : Option Nat
deriving DecidableEq, Repr

/-- An outbound transport action performed by the handler, with the
arguments the source passes. -/
inductive Action where
  /-- Call `context.bot.get_chat_member(chatId, userId)`. -/
  | getChatMember (chatId : Int) (userId : Int)
  /-- Call `context.bot.send_message(chat_id, text, disable_web_page_preview)`. -/
  | sendMessage (chatId : String) (text : String) (disableWebPagePreview : Bool)
  /-- Call `context.bot.forward_message(chat_id, from_chat_id, message_id)`. -/
  | forwardMessage (chatId : String) (fromChatId : Int) (messageId : Nat)
  /-- Call `msg.reply_text(text, parse_mode html?, disable_web_page_preview)`. -/
  | replyText (text : String) (parseModeHtml : Bool) (disableWebPagePreview : Bool)
deriving DecidableEq, Repr

/-- The results the external transport returns for the three fallible
outbound calls of one run.  `Except.error ()` models the call raising an
exception; the forward call returns the new message id of the forwarded
copy (`posted.message_id`). -/
structure Env where
  memberResult : Except Unit ChatMemberStatus
  announceResult : Except Unit Unit
  forwardResult : Except Unit Nat

/-- Shallow embedding of `post_handler` (main.py lines 13-40): the ordered
list of outbound transport actions performed for one inbound event, given
the transport's responses.  An `Except.error` from a call routes the run to
the catch-all `except` branch, which replies with the generic failure
notice. -/
def post_handler (env : Env) (msg : CommandEvent) : List Action :=
  if msg.chat_id = XECUT_CHAT_ID then
    Action.getChatMember RESIDENT_CHAT_ID msg.from_user_id ::
    match env.memberResult with
    | Except.error _ => [Action.replyText errorText false false]
    | Except.ok status =>
      if isAuthorized status then
        match msg.reply_to_message with
        | none => [Action.replyText usageText false false]
        | some replyId =>
          Action.sendMessage ("@" ++ XECUT_CHANNEL_TAG) (announceText replyId) true ::
          match env.announceResult with
          | Except.error _ => [Action.replyText errorText false false]
          | Except.ok _ =>
            Action.forwardMessage ("@" ++ XECUT_CHANNEL_TAG) msg.chat_id replyId ::
            match env.forwardResult with
            | Except.error _ => [Action.replyText errorText false false]
            | Except.ok postedId =>
              [Action.replyText (successText postedId) true true]
      else
        [Action.replyText denialText false false]
  else
    []

/-- Is the action a membership query? -/
def isQuery : Action → Bool
  | .getChatMember _ _ => true
  | _ => false

/-- Is the action a plain text send (the announce)? -/
def isSend : Action → Bool
  | .sendMessage _ _ _ => true
  | _ => false

/-- Is the action a forward? -/
def isForward : Action → Bool
  | .forwardMessage _ _ _ => true
  | _ => false

/-- Is the action a reply to the invoking message? -/
def isReply : Action → Bool
  | .replyText _ _ _ => true
  | _ => false

/-- Number of membership queries in a trace. -/
def queryCount (tr : List Action) : Nat := (tr.filter isQuery).length

/-- Number of announce sends in a trace. -/
def sendCount (tr : List Action) : Nat := (tr.filter isSend).length

/-- Number of forwards in a trace. -/
def forwardCount (tr : List Action) : Nat := (tr.filter isForward).length

/-- Number of replies in a trace. -/
def replyCount (tr : List Action) : Nat := (tr.filter isReply).length

/-- String `t` contains `s` as a contiguous substring. -/
def containsSubstr (t s : String) : Prop := ∃ a b, t = a ++ (s ++ b)

/-! Decimal rendering of message ids.

`Nat.repr` (used by Python's string interpolation of the integer
`posted.message_id`) is fuel-based; `natChars` is the same digit string
defined structurally, so that the id embedded in a rendered link can be
recovered and reasoned about. -/

/-- The decimal digit characters of `n`, most significant first; agrees with
`Nat.repr` (proved below). -/
def natChars (n : Nat) : List Char :=
  if _h : n < 10 then [Nat.digitChar n]
  else natChars (n / 10) ++ [Nat.digitChar (n % 10)]
termination_by n
decreasing_by simp_wf; omega

theorem digitChar_toNat (d : Nat) (h : d < 10) :
    (Nat.digitChar d).toNat = 48 + d := by
  interval_cases d <;> rfl

theorem digitChar_isDigit (d : Nat) (h : d < 10) :
    (Nat.digitChar d).isDigit = true := by
  interval_cases d <;> rfl

theorem toDigitsCore_eq_natChars :
    ∀ (fuel n : Nat) (acc : List Char), n < fuel →
      Nat.toDigitsCore 10 fuel n acc = natChars n ++ acc := by
  intro fuel
  induction fuel with
  | zero => intro n acc h; omega
  | succ fuel ih =>
    intro n acc h
    simp only [Nat.toDigitsCore]
    by_cases h10 : n / 10 = 0
    · have hn : n < 10 := by omega
      have hmod : n % 10 = n := Nat.mod_eq_of_lt hn
      rw [natChars, dif_pos hn]
      simp [h10, hmod]
    · have hn : ¬ n < 10 := by omega
      have hlt : n / 10 < fuel := by omega
      have hr : natChars n = natChars (n / 10) ++ [Nat.digitChar (n % 10)] := by
        rw [natChars]; exact dif_neg hn
      rw [hr]
      simp only [h10, if_neg h10]
      rw [ih (n / 10) (Nat.digitChar (n % 10) :: acc) hlt, List.append_assoc]
      rfl

/-- The characters of `Nat.repr n` are exactly `natChars n`. -/
theorem repr_data (n : Nat) : (Nat.repr n).data = natChars n := by
  show (Nat.toDigits 10 n).asString.data = natChars n
  rw [Nat.toDigits, toDigitsCore_eq_natChars (n + 1) n [] (Nat.lt_succ_self n)]
  simp [List.asString]

theorem natChars_digit (n : Nat) : ∀ c ∈ natChars n, c.isDigit = true := by
  induction n using Nat.strong_induction_on with
  | _ n ih =>
    by_cases h : n < 10
    · rw [natChars, dif_pos h]
      intro c hc
      simp only [List.mem_singleton] at hc
      subst hc
      exact digitChar_isDigit n h
    · rw [natChars, dif_neg h]
      intro c hc
      rcases List.mem_append.mp hc with h1 | h2
      · exact ih (n / 10) (by omega) c h1
      · simp only [List.mem_singleton] at h2
        subst h2
        exact digitChar_isDigit (n % 10) (by omega)

/-- One step of reading a decimal digit string. -/
def decodeStep (a : Nat) (c : Char) : Nat := 10 * a + (c.toNat - 48)

/-- The numeric value of a decimal digit string. -/
def decodeDigits (l : List Char) : Nat := l.foldl decodeStep 0

theorem foldl_decodeStep_natChars (n : Nat) :
    ∀ a : Nat,
      List.foldl decodeStep a (natChars n) = a * 10 ^ (natChars n).length + n := by
  induction n using Nat.strong_induction_on with
  | _ n ih =>
    intro a
    by_cases h : n < 10
    · rw [natChars, dif_pos h]
      simp [List.foldl, decodeStep, digitChar_toNat n h]
      omega
    · rw [natChars, dif_neg h]
      rw [List.foldl_append, ih (n / 10) (by omega) a]
      simp only [List.foldl, decodeStep, digitChar_toNat (n % 10) (by omega),
        List.length_append, List.length_singleton]
      rw [pow_succ, ← Nat.mul_assoc]
      generalize a * 10 ^ (natChars (n / 10)).length = P
      omega

theorem decodeDigits_natChars (n : Nat) : decodeDigits (natChars n) = n := by
  have := foldl_decodeStep_natChars n 0
  simpa [decodeDigits] using this

theorem takeWhile_digits_of_append (l t : List Char)
    (hl : ∀ c ∈ l, c.isDigit = true)
    (ht : t.takeWhile Char.isDigit = []) :
    (l ++ t).takeWhile Char.isDigit = l := by
  induction l with
  | nil => simpa using ht
  | cons a l ih =>
    have ha : Char.isDigit a = true := hl a (List.mem_cons_self a l)
    rw [List.cons_append, List.takeWhile_cons_of_pos ha,
      ih fun c hc => hl c (List.mem_cons_of_mem a hc)]

/-- The message id embedded in the success reply's confirmation link: the
run of decimal digits right after the fixed 44-character opening
`Запостил в <a href="https://t.me/xecut_live/` of the reply text. -/
def successLinkId (s : String) : Nat :=
  decodeDigits ((s.data.drop 44).takeWhile Char.isDigit)

theorem successText_data (p : Nat) :
    (successText p).data =
      "Запостил в <a href=\"https://t.me/xecut_live/".data ++
        ((Nat.repr p).data ++ "\">Xecut Live</a>".data) := by
  have hsplit : ("Запостил в <a href=\"https://t.me/xecut_live/".data : List Char) =
      "Запостил в <a href=\"".data ++
        ("https://t.me/".data ++ ("xecut_live".data ++ "/".data)) := by decide
  rw [hsplit]
  simp only [successText, confirmLink, XECUT_CHANNEL_TAG, String.data_append,
    List.append_assoc]

/-- Recovering the embedded id from the success reply text yields the id the
text was built from. -/
theorem successLinkId_successText (p : Nat) :
    successLinkId (successText p) = p := by
  unfold successLinkId
  rw [successText_data, repr_data,
    List.drop_left' (by decide :
      ("Запостил в <a href=\"https://t.me/xecut_live/".data : List Char).length = 44),
    takeWhile_digits_of_append _ _ (natChars_digit p) (by decide)]
  exact decodeDigits_natChars p

/-- C3: For every `ChatMemberStatus` value, the authorization decision
returns true iff the status is member, administrator, or owner; every other
status yields false. -/
theorem isAuthorized_iff_resident (s : ChatMemberStatus) :
    isAuthorized s = true ↔
      (s = ChatMemberStatus.member ∨ s = ChatMemberStatus.administrator ∨
        s = ChatMemberStatus.owner) := by
  cases s <;> simp [isAuthorized]

/-- C6: An event whose originating chat differs from the configured source
chat produces no outbound transport calls of any kind and no reply. -/
theorem offchat_no_actions (env : Env) (e : CommandEvent)
    (h : e.chat_id ≠ XECUT_CHAT_ID) :
    post_handler env e = [] := by
  simp [post_handler, h]

/-- Witness for C6 at a concrete off-chat event. -/
theorem offchat_no_actions_witness :
    post_handler ⟨Except.ok ChatMemberStatus.member, Except.ok (), Except.ok 5⟩
      ⟨0, 42, 100, some 7⟩ = [] :=
  offchat_no_actions _ _ (by decide)

/-- C1: For an authorized user with a reply target and all transport calls
succeeding, the handler performs, in this order: exactly one membership
query, one announce send to the destination channel, one forward of the
reply-target message, and one success reply whose text contains the
confirmation link `https://t.me/xecut_live/<forwarded message id>`. -/
theorem success_run_trace (env : Env) (e : CommandEvent) (s : ChatMemberStatus)
    (r p : Nat)
    (hchat : e.chat_id = XECUT_CHAT_ID)
    (hmem : env.memberResult = Except.ok s)
    (hauth : isAuthorized s = true)
    (hreply : e.reply_to_message = some r)
    (hann : env.announceResult = Except.ok ())
    (hfwd : env.forwardResult = Except.ok p) :
    post_handler env e =
      [Action.getChatMember RESIDENT_CHAT_ID e.from_user_id,
       Action.sendMessage ("@" ++ XECUT_CHANNEL_TAG) (announceText r) true,
       Action.forwardMessage ("@" ++ XECUT_CHANNEL_TAG) e.chat_id r,
       Action.replyText (successText p) true true] ∧
    queryCount (post_handler env e) = 1 ∧
    sendCount (post_handler env e) = 1 ∧
    forwardCount (post_handler env e) = 1 ∧
    replyCount (post_handler env e) = 1 ∧
    containsSubstr (successText p) (confirmLink p) := by
  have htr : post_handler env e =
      [Action.getChatMember RESIDENT_CHAT_ID e.from_user_id,
       Action.sendMessage ("@" ++ XECUT_CHANNEL_TAG) (announceText r) true,
       Action.forwardMessage ("@" ++ XECUT_CHANNEL_TAG) e.chat_id r,
       Action.replyText (successText p) true true] := by
    simp [post_handler, hchat, hmem, hauth, hreply, hann, hfwd]
  refine ⟨htr, ?_, ?_, ?_, ?_,
    ⟨"Запостил в <a href=\"", "\">Xecut Live</a>", rfl⟩⟩ <;>
    simp [htr, queryCount, sendCount, forwardCount, replyCount,
      isQuery, isSend, isForward, isReply]

/-- Witness for C1 at a concrete event and environment. -/
theorem success_run_trace_witness :
    post_handler ⟨Except.ok ChatMemberStatus.member, Except.ok (), Except.ok 55⟩
        ⟨XECUT_CHAT_ID, 42, 100, some 7⟩ =
      [Action.getChatMember RESIDENT_CHAT_ID 42,
       Action.sendMessage ("@" ++ XECUT_CHANNEL_TAG) (announceText 7) true,
       Action.forwardMessage ("@" ++ XECUT_CHANNEL_TAG) XECUT_CHAT_ID 7,
       Action.replyText (successText 55) true true] ∧
    queryCount (post_handler ⟨Except.ok ChatMemberStatus.member, Except.ok (), Except.ok 55⟩
        ⟨XECUT_CHAT_ID, 42, 100, some 7⟩) = 1 ∧
    sendCount (post_handler ⟨Except.ok ChatMemberStatus.member, Except.ok (), Except.ok 55⟩
        ⟨XECUT_CHAT_ID, 42, 100, some 7⟩) = 1 ∧
    forwardCount (post_handler ⟨Except.ok ChatMemberStatus.member, Except.ok (), Except.ok 55⟩
        ⟨XECUT_CHAT_ID, 42, 100, some 7⟩) = 1 ∧
    replyCount (post_handler ⟨Except.ok ChatMemberStatus.member, Except.ok (), Except.ok 55⟩
        ⟨XECUT_CHAT_ID, 42, 100, some 7⟩) = 1 ∧
    containsSubstr (successText 55) (confirmLink 55) :=
  success_run_trace _ _ ChatMemberStatus.member 7 55 rfl rfl rfl rfl rfl rfl

/-- C4: For an unauthorized user with a reply target, the handler performs
exactly one membership query, zero announce sends, zero forwards, and
exactly one reply, the fixed denial notice, then stops. -/
theorem unauthorized_trace (env : Env) (e : CommandEvent) (s : ChatMemberStatus)
    (r : Nat)
    (hchat : e.chat_id = XECUT_CHAT_ID)
    (hmem : env.memberResult = Except.ok s)
    (hauth : isAuthorized s = false)
    (_hreply : e.reply_to_message = some r) :
    post_handler env e =
      [Action.getChatMember RESIDENT_CHAT_ID e.from_user_id,
       Action.replyText denialText false false] ∧
    queryCount (post_handler env e) = 1 ∧
    sendCount (post_handler env e) = 0 ∧
    forwardCount (post_handler env e) = 0 ∧
    replyCount (post_handler env e) = 1 := by
  have htr : post_handler env e =
      [Action.getChatMember RESIDENT_CHAT_ID e.from_user_id,
       Action.replyText denialText false false] := by
    simp [post_handler, hchat, hmem, hauth]
  refine ⟨htr, ?_, ?_, ?_, ?_⟩ <;>
    simp [htr, queryCount, sendCount, forwardCount, replyCount,
      isQuery, isSend, isForward, isReply]

/-- Witness for C4 at a concrete event and environment. -/
theorem unauthorized_trace_witness :
    post_handler ⟨Except.ok ChatMemberStatus.left, Except.ok (), Except.ok 55⟩
        ⟨XECUT_CHAT_ID, 42, 100, some 7⟩ =
      [Action.getChatMember RESIDENT_CHAT_ID 42,
       Action.replyText denialText false false] ∧
    queryCount (post_handler ⟨Except.ok ChatMemberStatus.left, Except.ok (), Except.ok 55⟩
        ⟨XECUT_CHAT_ID, 42, 100, some 7⟩) = 1 ∧
    sendCount (post_handler ⟨Except.ok ChatMemberStatus.left, Except.ok (), Except.ok 55⟩
        ⟨XECUT_CHAT_ID, 42, 100, some 7⟩) = 0 ∧
    forwardCount (post_handler ⟨Except.ok ChatMemberStatus.left, Except.ok (), Except.ok 55⟩
        ⟨XECUT_CHAT_ID, 42, 100, some 7⟩) = 0 ∧
    replyCount (post_handler ⟨Except.ok ChatMemberStatus.left, Except.ok (), Except.ok 55⟩
        ⟨XECUT_CHAT_ID, 42, 100, some 7⟩) = 1 :=
  unauthorized_trace _ _ ChatMemberStatus.left 7 rfl rfl rfl rfl

/-- C5: For an authorized user without a reply target, the handler performs
exactly one reply, the fixed usage notice, and no transport calls other than
the single membership query: no announce and no forward occur. -/
theorem no_reply_target_trace (env : Env) (e : CommandEvent)
    (s : ChatMemberStatus)
    (hchat : e.chat_id = XECUT_CHAT_ID)
    (hmem : env.memberResult = Except.ok s)
    (hauth : isAuthorized s = true)
    (hreply : e.reply_to_message = none) :
    post_handler env e =
      [Action.getChatMember RESIDENT_CHAT_ID e.from_user_id,
       Action.replyText usageText false false] ∧
    queryCount (post_handler env e) = 1 ∧
    sendCount (post_handler env e) = 0 ∧
    forwardCount (post_handler env e) = 0 ∧
    replyCount (post_handler env e) = 1 := by
  have htr : post_handler env e =
      [Action.getChatMember RESIDENT_CHAT_ID e.from_user_id,
       Action.replyText usageText false false] := by
    simp [post_handler, hchat, hmem, hauth, hreply]
  refine ⟨htr, ?_, ?_, ?_, ?_⟩ <;>
    simp [htr, queryCount, sendCount, forwardCount, replyCount,
      isQuery, isSend, isForward, isReply]

/-- Witness for C5 at a concrete event and environment. -/
theorem no_reply_target_trace_witness :
    post_handler ⟨Except.ok ChatMemberStatus.administrator, Except.ok (), Except.ok 55⟩
        ⟨XECUT_CHAT_ID, 42, 100, none⟩ =
      [Action.getChatMember RESIDENT_CHAT_ID 42,
       Action.replyText usageText false false] ∧
    queryCount (post_handler ⟨Except.ok ChatMemberStatus.administrator, Except.ok (), Except.ok 55⟩
        ⟨XECUT_CHAT_ID, 42, 100, none⟩) = 1 ∧
    sendCount (post_handler ⟨Except.ok ChatMemberStatus.administrator, Except.ok (), Except.ok 55⟩
        ⟨XECUT_CHAT_ID, 42, 100, none⟩) = 0 ∧
    forwardCount (post_handler ⟨Except.ok ChatMemberStatus.administrator, Except.ok (), Except.ok 55⟩
        ⟨XECUT_CHAT_ID, 42, 100, none⟩) = 0 ∧
    replyCount (post_handler ⟨Except.ok ChatMemberStatus.administrator, Except.ok (), Except.ok 55⟩
        ⟨XECUT_CHAT_ID, 42, 100, none⟩) = 1 :=
  no_reply_target_trace _ _ ChatMemberStatus.administrator rfl rfl rfl rfl

/-- C7: When the announce send fails, the forward is never attempted and the
user receives exactly one reply, the generic failure notice. -/
theorem announce_failure_trace (env : Env) (e : CommandEvent)
    (s : ChatMemberStatus) (r : Nat)
    (hchat : e.chat_id = XECUT_CHAT_ID)
    (hmem : env.memberResult = Except.ok s)
    (hauth : isAuthorized s = true)
    (hreply : e.reply_to_message = some r)
    (hann : env.announceResult = Except.error ()) :
    post_handler env e =
      [Action.getChatMember RESIDENT_CHAT_ID e.from_user_id,
       Action.sendMessage ("@" ++ XECUT_CHANNEL_TAG) (announceText r) true,
       Action.replyText errorText false false] ∧
    forwardCount (post_handler env e) = 0 ∧
    replyCount (post_handler env e) = 1 := by
  have htr : post_handler env e =
      [Action.getChatMember RESIDENT_CHAT_ID e.from_user_id,
       Action.sendMessage ("@" ++ XECUT_CHANNEL_TAG) (announceText r) true,
       Action.replyText errorText false false] := by
    simp [post_handler, hchat, hmem, hauth, hreply, hann]
  refine ⟨htr, ?_, ?_⟩ <;>
    simp [htr, forwardCount, replyCount, isQuery, isSend, isForward, isReply]

/-- Witness for C7 at a concrete event and environment. -/
theorem announce_failure_trace_witness :
    post_handler ⟨Except.ok ChatMemberStatus.owner, Except.error (), Except.ok 55⟩
        ⟨XECUT_CHAT_ID, 42, 100, some 7⟩ =
      [Action.getChatMember RESIDENT_CHAT_ID 42,
       Action.sendMessage ("@" ++ XECUT_CHANNEL_TAG) (announceText 7) true,
       Action.replyText errorText false false] ∧
    forwardCount (post_handler ⟨Except.ok ChatMemberStatus.owner, Except.error (), Except.ok 55⟩
        ⟨XECUT_CHAT_ID, 42, 100, some 7⟩) = 0 ∧
    replyCount (post_handler ⟨Except.ok ChatMemberStatus.owner, Except.error (), Except.ok 55⟩
        ⟨XECUT_CHAT_ID, 42, 100, some 7⟩) = 1 :=
  announce_failure_trace _ _ ChatMemberStatus.owner 7 rfl rfl rfl rfl rfl

/-- C8: When the forward fails after a successful announce, the handler
produces exactly one generic failure reply, retries nothing, and performs no
compensating action on the announcement: the trace consists of exactly the
query, the one announce send, the failed forward attempt, and the failure
reply. -/
theorem forward_failure_trace (env : Env) (e : CommandEvent)
    (s : ChatMemberStatus) (r : Nat)
    (hchat : e.chat_id = XECUT_CHAT_ID)
    (hmem : env.memberResult = Except.ok s)
    (hauth : isAuthorized s = true)
    (hreply : e.reply_to_message = some r)
    (hann : env.announceResult = Except.ok ())
    (hfwd : env.forwardResult = Except.error ()) :
    post_handler env e =
      [Action.getChatMember RESIDENT_CHAT_ID e.from_user_id,
       Action.sendMessage ("@" ++ XECUT_CHANNEL_TAG) (announceText r) true,
       Action.forwardMessage ("@" ++ XECUT_CHANNEL_TAG) e.chat_id r,
       Action.replyText errorText false false] ∧
    sendCount (post_handler env e) = 1 ∧
    replyCount (post_handler env e) = 1 ∧
    Action.sendMessage ("@" ++ XECUT_CHANNEL_TAG) (announceText r) true ∈
      post_handler env e := by
  have htr : post_handler env e =
      [Action.getChatMember RESIDENT_CHAT_ID e.from_user_id,
       Action.sendMessage ("@" ++ XECUT_CHANNEL_TAG) (announceText r) true,
       Action.forwardMessage ("@" ++ XECUT_CHANNEL_TAG) e.chat_id r,
       Action.replyText errorText false false] := by
    simp [post_handler, hchat, hmem, hauth, hreply, hann, hfwd]
  refine ⟨htr, ?_, ?_, ?_⟩ <;>
    simp [htr, sendCount, replyCount, isQuery, isSend, isForward, isReply]

/-- Witness for C8 at a concrete event and environment. -/
theorem forward_failure_trace_witness :
    post_handler ⟨Except.ok ChatMemberStatus.member, Except.ok (), Except.error ()⟩
        ⟨XECUT_CHAT_ID, 42, 100, some 7⟩ =
      [Action.getChatMember RESIDENT_CHAT_ID 42,
       Action.sendMessage ("@" ++ XECUT_CHANNEL_TAG) (announceText 7) true,
       Action.forwardMessage ("@" ++ XECUT_CHANNEL_TAG) XECUT_CHAT_ID 7,
       Action.replyText errorText false false] ∧
    sendCount (post_handler ⟨Except.ok ChatMemberStatus.member, Except.ok (), Except.error ()⟩
        ⟨XECUT_CHAT_ID, 42, 100, some 7⟩) = 1 ∧
    replyCount (post_handler ⟨Except.ok ChatMemberStatus.member, Except.ok (), Except.error ()⟩
        ⟨XECUT_CHAT_ID, 42, 100, some 7⟩) = 1 ∧
    Action.sendMessage ("@" ++ XECUT_CHANNEL_TAG) (announceText 7) true ∈
      post_handler ⟨Except.ok ChatMemberStatus.member, Except.ok (), Except.error ()⟩
        ⟨XECUT_CHAT_ID, 42, 100, some 7⟩ :=
  forward_failure_trace _ _ ChatMemberStatus.member 7 rfl rfl rfl rfl rfl rfl

/-- C10: The authorization check precedes the reply-target check: an
unauthorized user without a reply target receives the denial notice, not the
usage notice, and the only transport call made is the membership query. -/
theorem unauthorized_no_target_trace (env : Env) (e : CommandEvent)
    (s : ChatMemberStatus)
    (hchat : e.chat_id = XECUT_CHAT_ID)
    (hmem : env.memberResult = Except.ok s)
    (hauth : isAuthorized s = false)
    (_hreply : e.reply_to_message = none) :
    post_handler env e =
      [Action.getChatMember RESIDENT_CHAT_ID e.from_user_id,
       Action.replyText denialText false false] ∧
    denialText ≠ usageText ∧
    queryCount (post_handler env e) = 1 ∧
    sendCount (post_handler env e) = 0 ∧
    forwardCount (post_handler env e) = 0 := by
  have htr : post_handler env e =
      [Action.getChatMember RESIDENT_CHAT_ID e.from_user_id,
       Action.replyText denialText false false] := by
    simp [post_handler, hchat, hmem, hauth]
  refine ⟨htr, by decide, ?_, ?_, ?_⟩ <;>
    simp [htr, queryCount, sendCount, forwardCount, isQuery, isSend, isForward]

/-- Witness for C10 at a concrete event and environment. -/
theorem unauthorized_no_target_trace_witness :
    post_handler ⟨Except.ok ChatMemberStatus.banned, Except.ok (), Except.ok 55⟩
        ⟨XECUT_CHAT_ID, 42, 100, none⟩ =
      [Action.getChatMember RESIDENT_CHAT_ID 42,
       Action.replyText denialText false false] ∧
    denialText ≠ usageText ∧
    queryCount (post_handler ⟨Except.ok ChatMemberStatus.banned, Except.ok (), Except.ok 55⟩
        ⟨XECUT_CHAT_ID, 42, 100, none⟩) = 1 ∧
    sendCount (post_handler ⟨Except.ok ChatMemberStatus.banned, Except.ok (), Except.ok 55⟩
        ⟨XECUT_CHAT_ID, 42, 100, none⟩) = 0 ∧
    forwardCount (post_handler ⟨Except.ok ChatMemberStatus.banned, Except.ok (), Except.ok 55⟩
        ⟨XECUT_CHAT_ID, 42, 100, none⟩) = 0 :=
  unauthorized_no_target_trace _ _ ChatMemberStatus.banned rfl rfl rfl rfl

/-- C2 counterexample: a failing membership query yields the generic failure
notice, which is NOT the denial text that a plain non-member receives. -/
theorem membership_error_not_denial :
    post_handler ⟨Except.error (), Except.ok (), Except.ok 55⟩
        ⟨XECUT_CHAT_ID, 42, 100, some 7⟩ =
      [Action.getChatMember RESIDENT_CHAT_ID 42,
       Action.replyText errorText false false] ∧
    post_handler ⟨Except.ok ChatMemberStatus.left, Except.ok (), Except.ok 55⟩
        ⟨XECUT_CHAT_ID, 42, 100, some 7⟩ =
      [Action.getChatMember RESIDENT_CHAT_ID 42,
       Action.replyText denialText false false] ∧
    errorText ≠ denialText :=
  ⟨rfl, rfl, by decide⟩

/-- C2 amended: a failing membership query denies relaying (no announce, no
forward), but the user is shown the generic failure notice, which differs
from the denial text shown to a non-member. -/
theorem membership_error_generic_reply (env : Env) (e : CommandEvent)
    (hchat : e.chat_id = XECUT_CHAT_ID)
    (hmem : env.memberResult = Except.error ()) :
    post_handler env e =
      [Action.getChatMember RESIDENT_CHAT_ID e.from_user_id,
       Action.replyText errorText false false] ∧
    sendCount (post_handler env e) = 0 ∧
    forwardCount (post_handler env e) = 0 ∧
    errorText ≠ denialText := by
  have htr : post_handler env e =
      [Action.getChatMember RESIDENT_CHAT_ID e.from_user_id,
       Action.replyText errorText false false] := by
    simp [post_handler, hchat, hmem]
  refine ⟨htr, ?_, ?_, by decide⟩ <;>
    simp [htr, sendCount, forwardCount, isSend, isForward]

/-- C9: For every successful run, the message id embedded in the
confirmation link of the success reply equals the message id returned by the
forward call; whenever the forwarded id differs from the original
reply-target's id, the embedded id therefore differs from the reply-target's
id as well. -/
theorem success_reply_id_from_forward (env : Env) (e : CommandEvent)
    (s : ChatMemberStatus) (r p : Nat)
    (hchat : e.chat_id = XECUT_CHAT_ID)
    (hmem : env.memberResult = Except.ok s)
    (hauth : isAuthorized s = true)
    (hreply : e.reply_to_message = some r)
    (hann : env.announceResult = Except.ok ())
    (hfwd : env.forwardResult = Except.ok p) :
    (post_handler env e).getLast? =
      some (Action.replyText (successText p) true true) ∧
    successLinkId (successText p) = p ∧
    (p ≠ r → successLinkId (successText p) ≠ r) := by
  have htr : post_handler env e =
      [Action.getChatMember RESIDENT_CHAT_ID e.from_user_id,
       Action.sendMessage ("@" ++ XECUT_CHANNEL_TAG) (announceText r) true,
       Action.forwardMessage ("@" ++ XECUT_CHANNEL_TAG) e.chat_id r,
       Action.replyText (successText p) true true] := by
    simp [post_handler, hchat, hmem, hauth, hreply, hann, hfwd]
  refine ⟨by rw [htr]; rfl, successLinkId_successText p, ?_⟩
  intro hne
  rw [successLinkId_successText p]
  exact hne

/-- Witness for C9 at a concrete event and environment. -/
theorem success_reply_id_from_forward_witness :
    (post_handler ⟨Except.ok ChatMemberStatus.member, Except.ok (), Except.ok 55⟩
        ⟨XECUT_CHAT_ID, 42, 100, some 7⟩).getLast? =
      some (Action.replyText (successText 55) true true) ∧
    successLinkId (successText 55) = 55 ∧
    ((55 : Nat) ≠ 7 → successLinkId (successText 55) ≠ 7) :=
  success_reply_id_from_forward _ _ ChatMemberStatus.member 7 55
    rfl rfl rfl rfl rfl rfl

/-- Witness for the amended C2 at a concrete event and environment. -/
theorem membership_error_generic_reply_witness :
    post_handler ⟨Except.error (), Except.ok (), Except.ok 55⟩
        ⟨XECUT_CHAT_ID, 43, 100, some 7⟩ =
      [Action.getChatMember RESIDENT_CHAT_ID 43,
       Action.replyText errorText false false] ∧
    sendCount (post_handler ⟨Except.error (), Except.ok (), Except.ok 55⟩
        ⟨XECUT_CHAT_ID, 43, 100, some 7⟩) = 0 ∧
    forwardCount (post_handler ⟨Except.error (), Except.ok (), Except.ok 55⟩
        ⟨XECUT_CHAT_ID, 43, 100, some 7⟩) = 0 ∧
    errorText ≠ denialText :=
  membership_error_generic_reply _ _ rfl rfl

end Xecutbot
